import Mathlib

/-!
Shallow embedding of `src/odpi/src/dpiObject.c`: the object-instance
lifecycle manager (allocate / close / free) and the bidirectional value
conversion engine (`dpiObject__toOracleValue` / `dpiObject__fromOracleValue`),
together with the public collection and attribute operations built on them.

External collaborators (`dpiOci__*`, `dpiDataBuffer__*`, `dpiLob__*`,
`dpiGen__*`, `dpiHandleList__*`) are modelled as oracle inputs: each external
call's outcome (success plus out-parameters, or failure) is an explicit
parameter, so every modelled function is a pure, executable Lean function of
the object state and the oracle outcomes.  Opaque native handles and pointers
are modelled as `Nat` tokens.  The mutex acquire/release pairs surrounding the
closing-flag updates have no effect in this sequential model; the flag
read-modify-write they guard is modelled as one atomic step, which is exactly
the semantics the lock establishes.
-/

/-- Oracle (database-native) type tags, mirroring `dpiOracleTypeNum`.
`NONE` models the C enum value 0 (an attribute whose type has no mapping);
`ROWID` and `STMT` stand for tags that reach the `default` branch of the
conversion switches. -/
inductive dpiOracleTypeNum where
  | NONE
  | CHAR | NCHAR | VARCHAR | NVARCHAR | RAW
  | NATIVE_INT | NATIVE_FLOAT | NATIVE_DOUBLE | NUMBER
  | DATE | TIMESTAMP | TIMESTAMP_TZ | TIMESTAMP_LTZ
  | OBJECT | BOOLEAN
  | CLOB | NCLOB | BLOB | BFILE
  | ROWID | STMT
  deriving DecidableEq, Repr

/-- External (driver-facing) type tags, mirroring `dpiNativeTypeNum`. -/
inductive dpiNativeTypeNum where
  | INT64 | UINT64 | FLOAT | DOUBLE | BYTES | TIMESTAMP
  | OBJECT | STMT | BOOLEAN | LOB | ROWID
  deriving DecidableEq, Repr

/-- Errors raised by this file (`dpiError__set` calls), plus markers for
failures of external calls (`nativeError`) and of the generic handle checks. -/
inductive DpiErr where
  | notCollection (schema name : String)
  | wrongAttr (attrName schema name : String)
  | wrongType (schema1 name1 schema2 name2 : String)
  | invalidIndex (index : Int)
  | unhandledConversion (oracleTypeNum : dpiOracleTypeNum)
      (nativeTypeNum : dpiNativeTypeNum)
  | unhandledDataType (ociTypeCode : Nat)
  | nullPointer
  | nativeError
  | invalidHandle
  | notConnected
  deriving DecidableEq, Repr

/-- Slice of `dpiEnv` used by this file. -/
structure DpiEnv where
  threaded : Bool
  encoding : Nat
  nencoding : Nat
  deriving DecidableEq, Repr

/-- Slice of `dpiConn` used by this file: the teardown flag consulted by
`dpiObject__closeHelper` and the connectivity consulted by
`dpiConn__checkConnected`. -/
structure DpiConn where
  closing : Bool
  connected : Bool
  deriving DecidableEq, Repr

/-- Identity view of a `dpiObjectType` referenced from a `dpiDataTypeInfo`
(the conversion code reads only its `tdo`, schema/name and collection flag). -/
structure ObjTypeRef where
  tdo : Nat
  schema : String
  name : String
  isCollection : Bool
  deriving DecidableEq, Repr

/-- Slice of `dpiDataTypeInfo` used by the conversion engine. -/
structure DpiDataTypeInfo where
  oracleTypeNum : dpiOracleTypeNum
  objectType : Option ObjTypeRef
  ociTypeCode : Nat
  deriving DecidableEq, Repr

/-- Slice of `dpiObjectType` used by this file. -/
structure DpiObjectType where
  tdo : Nat
  schema : String
  name : String
  isCollection : Bool
  elementTypeInfo : DpiDataTypeInfo
  conn : DpiConn
  deriving DecidableEq, Repr

/-- The `dpiObject` structure.  `instanceH` and `indicator` are the two opaque
native handles (`None` models NULL); `dependsOnObj` models whether the
`dependsOnObj` parent pointer is set; `registered` models membership of the
object in its connection's handle list at `openSlotNum`. -/
structure DpiObject where
  type : DpiObjectType
  env : DpiEnv
  instanceH : Option Nat
  indicator : Option Nat
  dependsOnObj : Bool
  closing : Bool
  freeIndicator : Bool
  registered : Bool
  deriving DecidableEq, Repr

/-- Slice of `dpiObjectAttr` used by the attribute operations. -/
structure DpiObjectAttr where
  belongsToTypeTdo : Nat
  name : String
  typeInfo : DpiDataTypeInfo
  deriving DecidableEq, Repr

/-- Outcomes of the two `dpiOci__objectFree` calls a single
`dpiObject__closeHelper` invocation can make (instance first, then the
separately owned indicator). -/
structure CloseOracle where
  freeInstOk : Bool
  freeIndOk : Bool
  deriving DecidableEq, Repr

/-- Result of one `dpiObject__close` call: the updated object, the returned
status, and counters for the native calls performed during the call
(`instFreeCalls` / `indFreeCalls` count `dpiOci__objectFree` invocations on
the instance and on the indicator, `instFreed` records that the instance free
call was made and succeeded, `removeCalls` counts
`dpiHandleList__removeHandle` invocations). -/
structure CloseOutcome where
  obj : DpiObject
  ok : Bool
  instFreeCalls : Nat
  indFreeCalls : Nat
  instFreed : Bool
  removeCalls : Nat
  deriving DecidableEq, Repr

/-- `dpiObject__closeHelper` (dpiObject.c lines 207-221): free the native
instance, then the indicator if this object owns one, then remove the object
from the connection's handle list unless the connection itself is tearing
down. -/
def dpiObject__closeHelper (obj : DpiObject) (o : CloseOracle) : CloseOutcome :=
  if !o.freeInstOk then
    { obj := obj, ok := false, instFreeCalls := 1, indFreeCalls := 0,
      instFreed := false, removeCalls := 0 }
  else
    -- obj->instance = NULL
    let obj1 : DpiObject := { obj with instanceH := none }
    if obj1.freeIndicator && !o.freeIndOk then
      { obj := obj1, ok := false, instFreeCalls := 1, indFreeCalls := 1,
        instFreed := true, removeCalls := 0 }
    else
      let indCalls : Nat := if obj1.freeIndicator then 1 else 0
      -- obj->indicator = NULL
      let obj2 : DpiObject := { obj1 with indicator := none }
      if !obj2.type.conn.closing then
        { obj := { obj2 with registered := false }, ok := true,
          instFreeCalls := 1, indFreeCalls := indCalls, instFreed := true,
          removeCalls := 1 }
      else
        { obj := obj2, ok := true, instFreeCalls := 1, indFreeCalls := indCalls,
          instFreed := true, removeCalls := 0 }

/-- `dpiObject__close` (dpiObject.c lines 167-200): atomically test-and-set the
closing flag; a caller that observes the flag already set returns success with
no work; otherwise, for a non-dependent object with a live instance handle,
perform the teardown and reset the flag if that teardown fails. -/
def dpiObject__close (obj : DpiObject) (o : CloseOracle) : CloseOutcome :=
  let wasClosing := obj.closing
  let obj := { obj with closing := true }
  if wasClosing then
    { obj := obj, ok := true, instFreeCalls := 0, indFreeCalls := 0,
      instFreed := false, removeCalls := 0 }
  else if obj.instanceH.isSome && !obj.dependsOnObj then
    let r := dpiObject__closeHelper obj o
    if r.ok then r
    else { r with obj := { r.obj with closing := false } }
  else
    { obj := obj, ok := true, instFreeCalls := 0, indFreeCalls := 0,
      instFreed := false, removeCalls := 0 }

/-- Outcomes of all `dpiObject__close` calls in a sequence of close attempts
(each with its own oracle outcomes), threading the object state through. -/
def closeRun : DpiObject → List CloseOracle → List CloseOutcome
  | _, [] => []
  | obj, o :: os =>
      let r := dpiObject__close obj o
      r :: closeRun r.obj os

/-- Object state after a sequence of close attempts. -/
def closeSeqObj : DpiObject → List CloseOracle → DpiObject
  | obj, [] => obj
  | obj, o :: os => closeSeqObj (dpiObject__close obj o).obj os

/-- Number of successful native frees of the instance across a sequence of
close outcomes. -/
def totalInstFreed (rs : List CloseOutcome) : Nat :=
  rs.foldr (fun r n => (if r.instFreed then 1 else 0) + n) 0

/-- Total `dpiOci__objectFree` calls on the indicator across a sequence. -/
def totalIndFreeCalls (rs : List CloseOutcome) : Nat :=
  rs.foldr (fun r n => r.indFreeCalls + n) 0

/-- Total `dpiHandleList__removeHandle` calls across a sequence. -/
def totalRemoveCalls (rs : List CloseOutcome) : Nat :=
  rs.foldr (fun r n => r.removeCalls + n) 0

/-- Oracle outcomes for the external calls made by `dpiObject__allocate`. -/
structure AllocOracle where
  genAllocOk : Bool
  objectNewRes : Option Nat
  getIndRes : Option (Nat × Bool)
  addHandleOk : Bool
  deriving DecidableEq, Repr

/-- `dpiObject__allocate` (dpiObject.c lines 40-76).  `dpiGen__allocate`
zero-initializes the record; when no existing instance handle is supplied, a
brand-new native value is constructed (`dpiOci__objectNew`) and its indicator
fetched (`dpiOci__objectGetInd`, an external step which also decides the
`freeIndicator` flag, returned here as the second component of `getIndRes`);
an object that has an instance and no parent is added to the connection's
handle list.  Reference-count adjustments on the type and the parent are
performed through the external `dpiGen__setRefCount` and are not tracked. -/
def dpiObject__allocate (objType : DpiObjectType) (env : DpiEnv)
    (instanceH indicator : Option Nat) (dependsOnObj : Bool)
    (o : AllocOracle) : Option DpiObject :=
  if !o.genAllocOk then none
  else
    let tempObj : DpiObject :=
      { type := objType, env := env, instanceH := instanceH,
        indicator := indicator, dependsOnObj := dependsOnObj,
        closing := false, freeIndicator := false, registered := false }
    match instanceH with
    | none =>
        match o.objectNewRes with
        | none => none
        | some inst =>
            match o.getIndRes with
            | none => none
            | some (ind, fi) =>
                let tempObj : DpiObject :=
                  { tempObj with
                    instanceH := some inst,
                    indicator := some ind, freeIndicator := fi }
                if !dependsOnObj then
                  if o.addHandleOk then some { tempObj with registered := true }
                  else none
                else some tempObj
    | some _ =>
        if !dependsOnObj then
          if o.addHandleOk then some { tempObj with registered := true }
          else none
        else some tempObj

/-- Model of the C union `dpiOracleDataBuffer` (the scratch buffer filled by
`dpiObject__toOracleValue`).  All pointer-typed members (`asString`,
`asRawData`, `asTimestamp`, `asLobLocator`, `asRaw`, `asCollection`) alias
each other in the union, so they are modelled by the single constructor
`ptr`; setting `buffer->asRaw = NULL` on the null path therefore also makes
`asString`/`asRawData`/`asTimestamp` read as NULL, exactly as in C. -/
inductive OracleDataBuffer where
  | uninit
  | ptr (p : Option Nat)
  | int32 (i : Int)
  | flt (f : Nat)
  | dbl (d : Nat)
  | number (n : Nat)
  | date (d : Nat)
  | boolean (b : Bool)
  deriving DecidableEq, Repr

/-- Read a pointer-typed member of the union.  Reading one from a state
holding a non-pointer member is type punning the C code never performs on the
paths that consult pointers; it is given the harmless value NULL. -/
def OracleDataBuffer.ptrVal : OracleDataBuffer → Option Nat
  | .ptr p => p
  | _ => none

/-- OCI descriptor-type constants used for the timestamp variants (opaque
tokens; only their distinctness matters). -/
def DPI_OCI_DTYPE_TIMESTAMP : Nat := 62

def DPI_OCI_DTYPE_TIMESTAMP_TZ : Nat := 63

def DPI_OCI_DTYPE_TIMESTAMP_LTZ : Nat := 64

/-- The OCI null / not-null indicator values. -/
def DPI_OCI_IND_NULL : Int := -1

def DPI_OCI_IND_NOTNULL : Int := 0

/-- Release actions `dpiObject__clearOracleValue` can perform: resizing an
OCI string or raw to zero, freeing a timestamp descriptor, or decrementing a
LOB's reference count. -/
inductive ClearAction where
  | stringResize (h : Nat)
  | rawResize (h : Nat)
  | descriptorFree (h : Nat) (handleType : Nat)
  | lobDecRef (h : Nat)
  deriving DecidableEq, Repr

/-- Scratch allocations performed by `dpiObject__toOracleValue`. -/
inductive AllocEvent where
  | stringAlloc (h : Nat)
  | rawAlloc (h : Nat)
  | timestampAlloc (h : Nat)
  | lobAlloc (h : Nat)
  deriving DecidableEq, Repr

/-- Value assigned to the `*ociValue` out-parameter of
`dpiObject__toOracleValue`: NULL, the address of a scratch-buffer member, or
a handle value (OCI string / raw / descriptor / locator / instance). -/
inductive OciValue where
  | uninit
  | null
  | intoBuffer
  | handle (h : Nat)
  deriving DecidableEq, Repr

/-- `dpiObject__clearOracleValue` (dpiObject.c lines 113-156): release the
scratch storage keyed to the oracle type tag.  The result is the list of
release actions performed. -/
def dpiObject__clearOracleValue (buffer : OracleDataBuffer) (lob : Option Nat)
    (oracleTypeNum : dpiOracleTypeNum) : List ClearAction :=
  match oracleTypeNum with
  | .CHAR | .NCHAR | .VARCHAR | .NVARCHAR =>
      match buffer.ptrVal with
      | some h => [.stringResize h]
      | none => []
  | .RAW =>
      match buffer.ptrVal with
      | some h => [.rawResize h]
      | none => []
  | .TIMESTAMP =>
      match buffer.ptrVal with
      | some h => [.descriptorFree h DPI_OCI_DTYPE_TIMESTAMP]
      | none => []
  | .TIMESTAMP_TZ =>
      match buffer.ptrVal with
      | some h => [.descriptorFree h DPI_OCI_DTYPE_TIMESTAMP_TZ]
      | none => []
  | .TIMESTAMP_LTZ =>
      match buffer.ptrVal with
      | some h => [.descriptorFree h DPI_OCI_DTYPE_TIMESTAMP_LTZ]
      | none => []
  | .CLOB | .NCLOB | .BLOB | .BFILE =>
      match lob with
      | some h => [.lobDecRef h]
      | none => []
  | _ => []

/-- Minimal view of a `dpiObject` referenced from a `dpiData` value (the
conversion code reads its type identity, instance and indicator handles). -/
structure ObjInst where
  typeTdo : Nat
  typeSchema : String
  typeName : String
  instanceH : Option Nat
  indicator : Option Nat
  deriving DecidableEq, Repr

/-- Model of the C union `dpiDataBuffer` inside a `dpiData`: reading any
member yields a value, as reading a C union member does. -/
structure DpiDataBuffer where
  asBytes : Nat
  asInt64 : Int
  asUint64 : Nat
  asFloat : Nat
  asDouble : Nat
  asBoolean : Bool
  asTimestamp : Nat
  asObject : ObjInst
  asLOB : Nat
  deriving DecidableEq, Repr

/-- The external tagged value `dpiData`. -/
structure DpiData where
  isNull : Bool
  value : DpiDataBuffer
  deriving DecidableEq, Repr

/-- Out-parameters of a successful `dpiOci__objectGetAttr` call: the scalar
indicator value, the (possibly NULL) pointer to a value indicator together
with the indicator value it holds, and the attribute value. -/
structure GetAttrOut where
  scalarInd : Int
  indPtr : Option Int
  value : Nat
  deriving DecidableEq, Repr

/-- Oracle outcomes and reader functions for the external calls made by the
conversion engine and the public operations.  `Option` results model
success-with-out-parameter versus failure; `Bool` results model plain
success/failure.  Reader fields (`stringPtr`, `readInt32`, ...) model
dereferencing members of the opaque native value token. -/
structure OciOps where
  stringAssignText : Nat → Option Nat
  rawAssignBytes : Nat → Option Nat
  toNumberFromInteger : Int → Option Nat
  toNumberFromDouble : Nat → Option Nat
  toNumberFromText : Nat → Option Nat
  toOracleDate : Nat → Option Nat
  toOracleDateFromDouble : Nat → Option Nat
  descriptorAlloc : Nat → Option Nat
  toOracleTimestamp : Nat → Nat → Bool → Bool
  toOracleTimestampFromDouble : Nat → dpiOracleTypeNum → Nat → Bool
  doubleToFloat : Nat → Nat
  lobAlloc : dpiOracleTypeNum → Option Nat
  lobSetFromBytes : Nat → Nat → Bool
  lobLocator : Nat → Nat
  stringPtr : Nat → Nat
  stringSize : Nat → Nat
  rawPtr : Nat → Nat
  rawSize : Nat → Nat
  readInt32 : Nat → Int
  readFloat : Nat → Nat
  readDouble : Nat → Nat
  readBoolean : Nat → Bool
  derefCollection : Nat → Nat
  fromNumberAsDouble : Nat → Option Nat
  fromNumberAsInteger : Nat → Option Int
  fromNumberAsUnsigned : Nat → Option Nat
  fromNumberAsText : Nat → Option Nat
  fromOracleDate : Nat → Option Nat
  fromOracleDateAsDouble : Nat → Option Nat
  fromOracleTimestamp : Nat → Bool → Option Nat
  fromOracleTimestampAsDouble : dpiOracleTypeNum → Nat → Option Nat
  allocObjectOk : Bool
  lobLocatorAssignOk : Bool
  collAppendOk : Bool
  collAssignElemOk : Bool
  objectSetAttrOk : Bool
  objectGetAttrRes : Option GetAttrOut
  tableSizeRes : Option Int
  tableFirstRes : Option Int
  tableLastRes : Option Int

/-- Result of `dpiObject__toOracleValue`: returned status plus the final
values of the scratch buffer, the `*lob` out-parameter (NULL-initialized by
every caller), the `*ociValue`, `*valueIndicator` and `*objectIndicator`
out-parameters, and the scratch allocations performed. -/
structure ToOracleResult where
  status : Option DpiErr := none
  buffer : OracleDataBuffer := .uninit
  lob : Option Nat := none
  ociValue : OciValue := .uninit
  valueIndicator : Int := DPI_OCI_IND_NOTNULL
  objectIndicator : Option Nat := none
  allocs : List AllocEvent := []
  deriving DecidableEq, Repr

/-- CHAR / NCHAR / VARCHAR / NVARCHAR arm of `dpiObject__toOracleValue`
(dpiObject.c lines 434-447); `buffer->asString = NULL` precedes the
external-type test. -/
def toOracleValueString (ops : OciOps) (vo : dpiOracleTypeNum)
    (nativeTypeNum : dpiNativeTypeNum) (data : DpiData) : ToOracleResult :=
  if nativeTypeNum = .BYTES then
    match ops.stringAssignText data.value.asBytes with
    | none => { status := some .nativeError, buffer := .ptr none }
    | some h =>
        { buffer := .ptr (some h), ociValue := .handle h,
          allocs := [.stringAlloc h] }
  else
    { status := some (.unhandledConversion vo nativeTypeNum),
      buffer := .ptr none }

/-- RAW arm of `dpiObject__toOracleValue` (dpiObject.c lines 448-458). -/
def toOracleValueRaw (ops : OciOps) (nativeTypeNum : dpiNativeTypeNum)
    (data : DpiData) : ToOracleResult :=
  if nativeTypeNum = .BYTES then
    match ops.rawAssignBytes data.value.asBytes with
    | none => { status := some .nativeError, buffer := .ptr none }
    | some h =>
        { buffer := .ptr (some h), ociValue := .handle h,
          allocs := [.rawAlloc h] }
  else
    { status := some (.unhandledConversion .RAW nativeTypeNum),
      buffer := .ptr none }

/-- NATIVE_INT arm of `dpiObject__toOracleValue` (dpiObject.c lines
459-465); `buffer->asInt32 = (int32_t) data->value.asInt64`. -/
def toOracleValueNativeInt (nativeTypeNum : dpiNativeTypeNum)
    (data : DpiData) : ToOracleResult :=
  if nativeTypeNum = .INT64 then
    { buffer := .int32 (Int.bmod data.value.asInt64 (2 ^ 32)),
      ociValue := .intoBuffer }
  else
    { status := some (.unhandledConversion .NATIVE_INT nativeTypeNum) }

/-- NUMBER arm of `dpiObject__toOracleValue` (dpiObject.c lines 466-477);
`*ociValue = &buffer->asNumber` precedes the external-type tests, and the
UINT64 external type has no branch. -/
def toOracleValueNumber (ops : OciOps) (nativeTypeNum : dpiNativeTypeNum)
    (data : DpiData) : ToOracleResult :=
  if nativeTypeNum = .INT64 then
    match ops.toNumberFromInteger data.value.asInt64 with
    | none => { status := some .nativeError, ociValue := .intoBuffer }
    | some t => { buffer := .number t, ociValue := .intoBuffer }
  else if nativeTypeNum = .DOUBLE then
    match ops.toNumberFromDouble data.value.asDouble with
    | none => { status := some .nativeError, ociValue := .intoBuffer }
    | some t => { buffer := .number t, ociValue := .intoBuffer }
  else if nativeTypeNum = .BYTES then
    match ops.toNumberFromText data.value.asBytes with
    | none => { status := some .nativeError, ociValue := .intoBuffer }
    | some t => { buffer := .number t, ociValue := .intoBuffer }
  else
    { status := some (.unhandledConversion .NUMBER nativeTypeNum),
      ociValue := .intoBuffer }

/-- NATIVE_FLOAT arm of `dpiObject__toOracleValue` (dpiObject.c lines
478-488): both the FLOAT and the DOUBLE external types are accepted, the
latter narrowing `buffer->asFloat = (float) data->value.asDouble`. -/
def toOracleValueNativeFloat (ops : OciOps)
    (nativeTypeNum : dpiNativeTypeNum) (data : DpiData) : ToOracleResult :=
  if nativeTypeNum = .FLOAT then
    { buffer := .flt data.value.asFloat, ociValue := .intoBuffer }
  else if nativeTypeNum = .DOUBLE then
    { buffer := .flt (ops.doubleToFloat data.value.asDouble),
      ociValue := .intoBuffer }
  else
    { status := some (.unhandledConversion .NATIVE_FLOAT nativeTypeNum) }

/-- NATIVE_DOUBLE arm of `dpiObject__toOracleValue` (dpiObject.c lines
489-495). -/
def toOracleValueNativeDouble (nativeTypeNum : dpiNativeTypeNum)
    (data : DpiData) : ToOracleResult :=
  if nativeTypeNum = .DOUBLE then
    { buffer := .dbl data.value.asDouble, ociValue := .intoBuffer }
  else
    { status := some (.unhandledConversion .NATIVE_DOUBLE nativeTypeNum) }

/-- DATE arm of `dpiObject__toOracleValue` (dpiObject.c lines 496-504);
`*ociValue = &buffer->asDate` precedes the external-type tests. -/
def toOracleValueDateCase (ops : OciOps) (nativeTypeNum : dpiNativeTypeNum)
    (data : DpiData) : ToOracleResult :=
  if nativeTypeNum = .TIMESTAMP then
    match ops.toOracleDate data.value.asTimestamp with
    | none => { status := some .nativeError, ociValue := .intoBuffer }
    | some t => { buffer := .date t, ociValue := .intoBuffer }
  else if nativeTypeNum = .DOUBLE then
    match ops.toOracleDateFromDouble data.value.asDouble with
    | none => { status := some .nativeError, ociValue := .intoBuffer }
    | some t => { buffer := .date t, ociValue := .intoBuffer }
  else
    { status := some (.unhandledConversion .DATE nativeTypeNum),
      ociValue := .intoBuffer }

/-- TIMESTAMP / TIMESTAMP_TZ / TIMESTAMP_LTZ arm of
`dpiObject__toOracleValue` (dpiObject.c lines 505-531):
`buffer->asTimestamp = NULL` precedes the external-type test; a descriptor
is allocated before the payload conversion, so it is present in the buffer
(for the caller's clear) even when that conversion fails. -/
def toOracleValueTimestampCase (ops : OciOps) (vo : dpiOracleTypeNum)
    (nativeTypeNum : dpiNativeTypeNum) (data : DpiData) : ToOracleResult :=
  if nativeTypeNum = .TIMESTAMP ∨ nativeTypeNum = .DOUBLE then
    let handleType :=
      if vo = .TIMESTAMP_LTZ then DPI_OCI_DTYPE_TIMESTAMP_LTZ
      else if vo = .TIMESTAMP then DPI_OCI_DTYPE_TIMESTAMP
      else DPI_OCI_DTYPE_TIMESTAMP_TZ
    match ops.descriptorAlloc handleType with
    | none => { status := some .nativeError, buffer := .ptr none }
    | some ts =>
        if nativeTypeNum = .TIMESTAMP then
          if ops.toOracleTimestamp data.value.asTimestamp ts
              (vo ≠ .TIMESTAMP) then
            { buffer := .ptr (some ts), ociValue := .handle ts,
              allocs := [.timestampAlloc ts] }
          else
            { status := some .nativeError, buffer := .ptr (some ts),
              ociValue := .handle ts, allocs := [.timestampAlloc ts] }
        else
          if ops.toOracleTimestampFromDouble data.value.asDouble vo ts then
            { buffer := .ptr (some ts), ociValue := .handle ts,
              allocs := [.timestampAlloc ts] }
          else
            { status := some .nativeError, buffer := .ptr (some ts),
              ociValue := .handle ts, allocs := [.timestampAlloc ts] }
  else
    { status := some (.unhandledConversion vo nativeTypeNum),
      buffer := .ptr none }

/-- OBJECT arm of `dpiObject__toOracleValue` (dpiObject.c lines 532-548):
type identity is compared through the `tdo`; the C code dereferences
`dataTypeInfo->objectType` unconditionally here, so an absent descriptor is
modelled by default tokens. -/
def toOracleValueObject (dataTypeInfo : DpiDataTypeInfo)
    (nativeTypeNum : dpiNativeTypeNum) (data : DpiData) : ToOracleResult :=
  let otherObj := data.value.asObject
  if nativeTypeNum = .OBJECT then
    let otTdo := (dataTypeInfo.objectType.map ObjTypeRef.tdo).getD 0
    let otSchema := (dataTypeInfo.objectType.map ObjTypeRef.schema).getD ""
    let otName := (dataTypeInfo.objectType.map ObjTypeRef.name).getD ""
    if otherObj.typeTdo ≠ otTdo then
      { status := some (.wrongType otherObj.typeSchema otherObj.typeName
          otSchema otName) }
    else
      { ociValue := match otherObj.instanceH with
          | some h => .handle h
          | none => .null,
        objectIndicator := otherObj.indicator }
  else
    { status := some (.unhandledConversion .OBJECT nativeTypeNum) }

/-- BOOLEAN arm of `dpiObject__toOracleValue` (dpiObject.c lines 549-555). -/
def toOracleValueBoolean (nativeTypeNum : dpiNativeTypeNum) (data : DpiData) :
    ToOracleResult :=
  if nativeTypeNum = .BOOLEAN then
    { buffer := .boolean data.value.asBoolean, ociValue := .intoBuffer }
  else
    { status := some (.unhandledConversion .BOOLEAN nativeTypeNum) }

/-- CLOB / NCLOB / BLOB / BFILE arm of `dpiObject__toOracleValue`
(dpiObject.c lines 556-577): `buffer->asLobLocator = NULL` precedes the
external-type tests; for the LOB external type the locator of the referenced
lob is passed through and the `*lob` out-parameter is left NULL; for the
BYTES external type a brand-new lob is allocated and returned through
`*lob`, populated from the bytes, and its locator stored in the buffer only
after the population succeeded. -/
def toOracleValueLobCase (ops : OciOps) (vo : dpiOracleTypeNum)
    (nativeTypeNum : dpiNativeTypeNum) (data : DpiData) : ToOracleResult :=
  if nativeTypeNum = .LOB then
    { buffer := .ptr none,
      ociValue := .handle (ops.lobLocator data.value.asLOB) }
  else if nativeTypeNum = .BYTES then
    match ops.lobAlloc vo with
    | none => { status := some .nativeError, buffer := .ptr none }
    | some l =>
        if ops.lobSetFromBytes l data.value.asBytes then
          { buffer := .ptr (some (ops.lobLocator l)), lob := some l,
            ociValue := .handle (ops.lobLocator l), allocs := [.lobAlloc l] }
        else
          { status := some .nativeError, buffer := .ptr none, lob := some l,
            allocs := [.lobAlloc l] }
  else
    { status := some (.unhandledConversion vo nativeTypeNum),
      buffer := .ptr none }

/-- `dpiObject__toOracleValue` (dpiObject.c lines 411-585): convert an
external tagged value to the native encoding demanded by the target type,
using the scratch buffer.  A null tagged value is handled before the type
switch; the switch arms are the `toOracleValue*` functions above; a type tag
with no arm falls through to the unhandled-conversion error naming the
oracle type and the requested external type. -/
def dpiObject__toOracleValue (ops : OciOps) (obj : DpiObject)
    (dataTypeInfo : DpiDataTypeInfo) (nativeTypeNum : dpiNativeTypeNum)
    (data : DpiData) : ToOracleResult :=
  -- nulls are handled easily
  if data.isNull then
    { status := none, buffer := .ptr none, ociValue := .null,
      valueIndicator := DPI_OCI_IND_NULL }
  else
    match dataTypeInfo.oracleTypeNum with
    | .CHAR => toOracleValueString ops .CHAR nativeTypeNum data
    | .NCHAR => toOracleValueString ops .NCHAR nativeTypeNum data
    | .VARCHAR => toOracleValueString ops .VARCHAR nativeTypeNum data
    | .NVARCHAR => toOracleValueString ops .NVARCHAR nativeTypeNum data
    | .RAW => toOracleValueRaw ops nativeTypeNum data
    | .NATIVE_INT => toOracleValueNativeInt nativeTypeNum data
    | .NUMBER => toOracleValueNumber ops nativeTypeNum data
    | .NATIVE_FLOAT => toOracleValueNativeFloat ops nativeTypeNum data
    | .NATIVE_DOUBLE => toOracleValueNativeDouble nativeTypeNum data
    | .DATE => toOracleValueDateCase ops nativeTypeNum data
    | .TIMESTAMP => toOracleValueTimestampCase ops .TIMESTAMP nativeTypeNum data
    | .TIMESTAMP_TZ =>
        toOracleValueTimestampCase ops .TIMESTAMP_TZ nativeTypeNum data
    | .TIMESTAMP_LTZ =>
        toOracleValueTimestampCase ops .TIMESTAMP_LTZ nativeTypeNum data
    | .OBJECT => toOracleValueObject dataTypeInfo nativeTypeNum data
    | .BOOLEAN => toOracleValueBoolean nativeTypeNum data
    | .CLOB => toOracleValueLobCase ops .CLOB nativeTypeNum data
    | .NCLOB => toOracleValueLobCase ops .NCLOB nativeTypeNum data
    | .BLOB => toOracleValueLobCase ops .BLOB nativeTypeNum data
    | .BFILE => toOracleValueLobCase ops .BFILE nativeTypeNum data
    | vo => { status := some (.unhandledConversion vo nativeTypeNum) }

/-- What `dpiObject__fromOracleValue` writes into `data->value`. -/
inductive FromValue where
  | bytes (ptr len : Nat) (encoding : Option Nat)
  | int64 (i : Int)
  | uint64 (u : Nat)
  | flt (f : Nat)
  | dbl (d : Nat)
  | boolean (b : Bool)
  | timestamp (t : Nat)
  | obj (o : ObjInst)
  | lob (l : Nat)
  deriving DecidableEq, Repr

/-- Result of `dpiObject__fromOracleValue`: returned status, the `isNull`
flag written into the output `dpiData`, and the value written into it (if
the conversion got that far). -/
structure FromOracleResult where
  status : Option DpiErr
  isNull : Bool
  value : Option FromValue
  deriving DecidableEq, Repr

/-- Success result of a `dpiObject__fromOracleValue` arm. -/
def fromOracleOk (v : FromValue) : FromOracleResult :=
  { status := none, isNull := false, value := some v }

/-- Failure of an external call inside a `dpiObject__fromOracleValue` arm. -/
def fromOracleFail : FromOracleResult :=
  { status := some .nativeError, isNull := false, value := none }

/-- Unhandled-pairing error of a `dpiObject__fromOracleValue` arm. -/
def fromOracleUnhandled (vo : dpiOracleTypeNum)
    (nativeTypeNum : dpiNativeTypeNum) : FromOracleResult :=
  { status := some (.unhandledConversion vo nativeTypeNum), isNull := false,
    value := none }

/-- CHAR / NCHAR / VARCHAR / NVARCHAR arm of `dpiObject__fromOracleValue`
(dpiObject.c lines 265-281): the national encoding is used for the NCHAR
variants. -/
def fromOracleValueString (ops : OciOps) (obj : DpiObject)
    (vo : dpiOracleTypeNum) (value : Nat)
    (nativeTypeNum : dpiNativeTypeNum) : FromOracleResult :=
  if nativeTypeNum = .BYTES then
    let enc :=
      if vo = .NCHAR ∨ vo = .NVARCHAR then obj.env.nencoding
      else obj.env.encoding
    fromOracleOk (.bytes (ops.stringPtr value) (ops.stringSize value)
      (some enc))
  else fromOracleUnhandled vo nativeTypeNum

/-- RAW arm of `dpiObject__fromOracleValue` (dpiObject.c lines 282-292). -/
def fromOracleValueRaw (ops : OciOps) (value : Nat)
    (nativeTypeNum : dpiNativeTypeNum) : FromOracleResult :=
  if nativeTypeNum = .BYTES then
    fromOracleOk (.bytes (ops.rawPtr value) (ops.rawSize value) none)
  else fromOracleUnhandled .RAW nativeTypeNum

/-- NATIVE_INT arm of `dpiObject__fromOracleValue` (dpiObject.c lines
293-298); the native encoding is a 32-bit integer widened to 64 bits. -/
def fromOracleValueNativeInt (ops : OciOps) (value : Nat)
    (nativeTypeNum : dpiNativeTypeNum) : FromOracleResult :=
  if nativeTypeNum = .INT64 then fromOracleOk (.int64 (ops.readInt32 value))
  else fromOracleUnhandled .NATIVE_INT nativeTypeNum

/-- NATIVE_FLOAT arm of `dpiObject__fromOracleValue` (dpiObject.c lines
299-304): only the FLOAT external type is accepted in this direction. -/
def fromOracleValueNativeFloat (ops : OciOps) (value : Nat)
    (nativeTypeNum : dpiNativeTypeNum) : FromOracleResult :=
  if nativeTypeNum = .FLOAT then fromOracleOk (.flt (ops.readFloat value))
  else fromOracleUnhandled .NATIVE_FLOAT nativeTypeNum

/-- NATIVE_DOUBLE arm of `dpiObject__fromOracleValue` (dpiObject.c lines
305-310). -/
def fromOracleValueNativeDouble (ops : OciOps) (value : Nat)
    (nativeTypeNum : dpiNativeTypeNum) : FromOracleResult :=
  if nativeTypeNum = .DOUBLE then fromOracleOk (.dbl (ops.readDouble value))
  else fromOracleUnhandled .NATIVE_DOUBLE nativeTypeNum

/-- NUMBER arm of `dpiObject__fromOracleValue` (dpiObject.c lines 311-324):
DOUBLE, INT64, UINT64 and BYTES (decimal text, whose pointer/length details
are folded into the token) are all accepted in this direction. -/
def fromOracleValueNumber (ops : OciOps) (value : Nat)
    (nativeTypeNum : dpiNativeTypeNum) : FromOracleResult :=
  if nativeTypeNum = .DOUBLE then
    match ops.fromNumberAsDouble value with
    | some d => fromOracleOk (.dbl d)
    | none => fromOracleFail
  else if nativeTypeNum = .INT64 then
    match ops.fromNumberAsInteger value with
    | some i => fromOracleOk (.int64 i)
    | none => fromOracleFail
  else if nativeTypeNum = .UINT64 then
    match ops.fromNumberAsUnsigned value with
    | some u => fromOracleOk (.uint64 u)
    | none => fromOracleFail
  else if nativeTypeNum = .BYTES then
    match ops.fromNumberAsText value with
    | some t => fromOracleOk (.bytes t 0 none)
    | none => fromOracleFail
  else fromOracleUnhandled .NUMBER nativeTypeNum

/-- DATE arm of `dpiObject__fromOracleValue` (dpiObject.c lines 325-332). -/
def fromOracleValueDateCase (ops : OciOps) (value : Nat)
    (nativeTypeNum : dpiNativeTypeNum) : FromOracleResult :=
  if nativeTypeNum = .TIMESTAMP then
    match ops.fromOracleDate value with
    | some t => fromOracleOk (.timestamp t)
    | none => fromOracleFail
  else if nativeTypeNum = .DOUBLE then
    match ops.fromOracleDateAsDouble value with
    | some d => fromOracleOk (.dbl d)
    | none => fromOracleFail
  else fromOracleUnhandled .DATE nativeTypeNum

/-- TIMESTAMP / TIMESTAMP_TZ / TIMESTAMP_LTZ arm of
`dpiObject__fromOracleValue` (dpiObject.c lines 333-351): the time-zone
variants read the timestamp with its zone. -/
def fromOracleValueTimestampCase (ops : OciOps) (vo : dpiOracleTypeNum)
    (value : Nat) (nativeTypeNum : dpiNativeTypeNum) : FromOracleResult :=
  if nativeTypeNum = .TIMESTAMP then
    match ops.fromOracleTimestamp value (vo ≠ .TIMESTAMP) with
    | some t => fromOracleOk (.timestamp t)
    | none => fromOracleFail
  else if nativeTypeNum = .DOUBLE then
    match ops.fromOracleTimestampAsDouble vo value with
    | some d => fromOracleOk (.dbl d)
    | none => fromOracleFail
  else fromOracleUnhandled vo nativeTypeNum

/-- OBJECT arm of `dpiObject__fromOracleValue` (dpiObject.c lines 352-365):
requires the descriptor to carry an object type; wraps the aliased native
memory (dereferenced once for a collection read through a non-collection
object) in a dependent object allocated with `dpiObject__allocate` (parent
`obj`); the indicator pointer stored in the wrapper is not tracked by the
model. -/
def fromOracleValueObject (ops : OciOps) (obj : DpiObject)
    (typeInfo : DpiDataTypeInfo) (value : Nat)
    (nativeTypeNum : dpiNativeTypeNum) : FromOracleResult :=
  match typeInfo.objectType with
  | some ot =>
      if nativeTypeNum = .OBJECT then
        let inst :=
          if ot.isCollection && !obj.type.isCollection then
            ops.derefCollection value
          else value
        if ops.allocObjectOk then
          fromOracleOk (.obj
            { typeTdo := ot.tdo, typeSchema := ot.schema,
              typeName := ot.name, instanceH := some inst,
              indicator := none })
        else fromOracleFail
      else fromOracleUnhandled .OBJECT nativeTypeNum
  | none => fromOracleUnhandled .OBJECT nativeTypeNum

/-- BOOLEAN arm of `dpiObject__fromOracleValue` (dpiObject.c lines
366-371). -/
def fromOracleValueBoolean (ops : OciOps) (value : Nat)
    (nativeTypeNum : dpiNativeTypeNum) : FromOracleResult :=
  if nativeTypeNum = .BOOLEAN then
    fromOracleOk (.boolean (ops.readBoolean value))
  else fromOracleUnhandled .BOOLEAN nativeTypeNum

/-- CLOB / NCLOB / BLOB / BFILE arm of `dpiObject__fromOracleValue`
(dpiObject.c lines 372-397): only the LOB external type is accepted in this
direction; a fresh lob is allocated and the source locator assigned into it;
on assignment failure the fresh lob is freed by the converter itself
(`dpiLob__free`). -/
def fromOracleValueLobCase (ops : OciOps) (vo : dpiOracleTypeNum)
    (nativeTypeNum : dpiNativeTypeNum) : FromOracleResult :=
  if nativeTypeNum = .LOB then
    match ops.lobAlloc vo with
    | none => fromOracleFail
    | some l =>
        if ops.lobLocatorAssignOk then fromOracleOk (.lob l)
        else fromOracleFail
  else fromOracleUnhandled vo nativeTypeNum

/-- `dpiObject__fromOracleValue` (dpiObject.c lines 248-404): populate an
external tagged value from a native value.  A null indicator is handled
before the type switch (the native encoding is never read); the switch arms
are the `fromOracleValue*` functions above; a type tag with no arm falls
through to the unhandled-conversion error naming the oracle type and the
requested external type.  `value` is the opaque native value token and
`indicator` the dereferenced `int16_t` indicator value. -/
def dpiObject__fromOracleValue (ops : OciOps) (obj : DpiObject)
    (typeInfo : DpiDataTypeInfo) (value : Nat) (indicator : Int)
    (nativeTypeNum : dpiNativeTypeNum) : FromOracleResult :=
  -- null values are immediately returned (type is irrelevant)
  if indicator = DPI_OCI_IND_NULL then
    { status := none, isNull := true, value := none }
  else
    match typeInfo.oracleTypeNum with
    | .CHAR => fromOracleValueString ops obj .CHAR value nativeTypeNum
    | .NCHAR => fromOracleValueString ops obj .NCHAR value nativeTypeNum
    | .VARCHAR => fromOracleValueString ops obj .VARCHAR value nativeTypeNum
    | .NVARCHAR => fromOracleValueString ops obj .NVARCHAR value nativeTypeNum
    | .RAW => fromOracleValueRaw ops value nativeTypeNum
    | .NATIVE_INT => fromOracleValueNativeInt ops value nativeTypeNum
    | .NATIVE_FLOAT => fromOracleValueNativeFloat ops value nativeTypeNum
    | .NATIVE_DOUBLE => fromOracleValueNativeDouble ops value nativeTypeNum
    | .NUMBER => fromOracleValueNumber ops value nativeTypeNum
    | .DATE => fromOracleValueDateCase ops value nativeTypeNum
    | .TIMESTAMP =>
        fromOracleValueTimestampCase ops .TIMESTAMP value nativeTypeNum
    | .TIMESTAMP_TZ =>
        fromOracleValueTimestampCase ops .TIMESTAMP_TZ value nativeTypeNum
    | .TIMESTAMP_LTZ =>
        fromOracleValueTimestampCase ops .TIMESTAMP_LTZ value nativeTypeNum
    | .OBJECT => fromOracleValueObject ops obj typeInfo value nativeTypeNum
    | .BOOLEAN => fromOracleValueBoolean ops value nativeTypeNum
    | .CLOB => fromOracleValueLobCase ops .CLOB nativeTypeNum
    | .NCLOB => fromOracleValueLobCase ops .NCLOB nativeTypeNum
    | .BLOB => fromOracleValueLobCase ops .BLOB nativeTypeNum
    | .BFILE => fromOracleValueLobCase ops .BFILE nativeTypeNum
    | vo => fromOracleUnhandled vo nativeTypeNum

/-- Native calls a public operation can make after its precondition checks
(`clearValue` records the tag passed to `dpiObject__clearOracleValue` and the
release actions it performed). -/
inductive NativeCall where
  | objectGetAttr
  | objectSetAttr
  | collAppend
  | collAssignElem
  | tableSize
  | tableFirst
  | tableLast
  | clearValue (tag : dpiOracleTypeNum) (actions : List ClearAction)
  deriving DecidableEq, Repr

/-- `dpiObject__check` (dpiObject.c lines 83-89): generic handle validation
(`dpiGen__startPublicFn`, whose outcome is the oracle `handleOk`) followed by
the connection-liveness check. -/
def dpiObject__check (obj : DpiObject) (handleOk : Bool) : Option DpiErr :=
  if !handleOk then some .invalidHandle
  else if !obj.type.conn.connected then some .notConnected
  else none

/-- `dpiObject__checkIsCollection` (dpiObject.c lines 96-106). -/
def dpiObject__checkIsCollection (obj : DpiObject) (handleOk : Bool) :
    Option DpiErr :=
  match dpiObject__check obj handleOk with
  | some e => some e
  | none =>
      if !obj.type.isCollection then
        some (.notCollection obj.type.schema obj.type.name)
      else none

/-- Result of a public operation that returns only a status. -/
structure PublicResult where
  status : Option DpiErr
  trace : List NativeCall
  deriving DecidableEq, Repr

/-- `dpiObject_appendElement` (dpiObject.c lines 602-628): collection check,
null-argument check, conversion, native append on conversion success, then
the unconditional scratch clear keyed to the element type tag. -/
def dpiObject_appendElement (ops : OciOps) (obj : DpiObject) (handleOk : Bool)
    (nativeTypeNum : dpiNativeTypeNum) (data : Option DpiData) : PublicResult :=
  match dpiObject__checkIsCollection obj handleOk with
  | some e => { status := some e, trace := [] }
  | none =>
      match data with
      | none => { status := some .nullPointer, trace := [] }
      | some d =>
          let conv := dpiObject__toOracleValue ops obj
            obj.type.elementTypeInfo nativeTypeNum d
          let tag := obj.type.elementTypeInfo.oracleTypeNum
          let acts := dpiObject__clearOracleValue conv.buffer conv.lob tag
          match conv.status with
          | some e => { status := some e, trace := [.clearValue tag acts] }
          | none =>
              -- a NULL object indicator falls back to the scalar indicator
              -- before the native append
              { status := if ops.collAppendOk then none
                  else some .nativeError,
                trace := [.collAppend, .clearValue tag acts] }

/-- `dpiObject_setElementValueByIndex` (dpiObject.c lines 939-965). -/
def dpiObject_setElementValueByIndex (ops : OciOps) (obj : DpiObject)
    (handleOk : Bool) (index : Int) (nativeTypeNum : dpiNativeTypeNum)
    (data : Option DpiData) : PublicResult :=
  match dpiObject__checkIsCollection obj handleOk with
  | some e => { status := some e, trace := [] }
  | none =>
      match data with
      | none => { status := some .nullPointer, trace := [] }
      | some d =>
          let conv := dpiObject__toOracleValue ops obj
            obj.type.elementTypeInfo nativeTypeNum d
          let tag := obj.type.elementTypeInfo.oracleTypeNum
          let acts := dpiObject__clearOracleValue conv.buffer conv.lob tag
          match conv.status with
          | some e => { status := some e, trace := [.clearValue tag acts] }
          | none =>
              { status := if ops.collAssignElemOk then none
                  else some .nativeError,
                trace := [.collAssignElem, .clearValue tag acts] }

/-- `dpiObject_setAttributeValue` (dpiObject.c lines 889-932): handle checks,
attribute-ownership check by type identity, data-type-support check,
conversion, native attribute set on conversion success, then the
unconditional scratch clear keyed to the attribute type tag. -/
def dpiObject_setAttributeValue (ops : OciOps) (obj : DpiObject)
    (handleOk attrHandleOk : Bool) (attr : DpiObjectAttr)
    (nativeTypeNum : dpiNativeTypeNum) (data : Option DpiData) : PublicResult :=
  match dpiObject__check obj handleOk with
  | some e => { status := some e, trace := [] }
  | none =>
      match data with
      | none => { status := some .nullPointer, trace := [] }
      | some d =>
          if !attrHandleOk then { status := some .invalidHandle, trace := [] }
          else if attr.belongsToTypeTdo ≠ obj.type.tdo then
            { status := some (.wrongAttr attr.name obj.type.schema
                obj.type.name),
              trace := [] }
          else if attr.typeInfo.oracleTypeNum = .NONE then
            { status := some (.unhandledDataType attr.typeInfo.ociTypeCode),
              trace := [] }
          else
            let conv := dpiObject__toOracleValue ops obj attr.typeInfo
              nativeTypeNum d
            let tag := attr.typeInfo.oracleTypeNum
            let acts := dpiObject__clearOracleValue conv.buffer conv.lob tag
            match conv.status with
            | some e => { status := some e, trace := [.clearValue tag acts] }
            | none =>
                { status := if ops.objectSetAttrOk then none
                    else some .nativeError,
                  trace := [.objectSetAttr, .clearValue tag acts] }

/-- Result of `dpiObject_getAttributeValue`. -/
structure GetAttrResult where
  status : Option DpiErr
  conv : Option FromOracleResult
  trace : List NativeCall
  deriving DecidableEq, Repr

/-- `dpiObject_getAttributeValue` (dpiObject.c lines 675-718): handle checks,
attribute-ownership check by type identity, native attribute get, indicator
defaulting, data-type-support check, then conversion to the output format. -/
def dpiObject_getAttributeValue (ops : OciOps) (obj : DpiObject)
    (handleOk attrHandleOk dataPtrOk : Bool) (attr : DpiObjectAttr)
    (nativeTypeNum : dpiNativeTypeNum) : GetAttrResult :=
  match dpiObject__check obj handleOk with
  | some e => { status := some e, conv := none, trace := [] }
  | none =>
      if !dataPtrOk then
        { status := some .nullPointer, conv := none, trace := [] }
      else if !attrHandleOk then
        { status := some .invalidHandle, conv := none, trace := [] }
      else if attr.belongsToTypeTdo ≠ obj.type.tdo then
        { status := some (.wrongAttr attr.name obj.type.schema obj.type.name),
          conv := none, trace := [] }
      else
        match ops.objectGetAttrRes with
        | none =>
            { status := some .nativeError, conv := none,
              trace := [.objectGetAttr] }
        | some out =>
            -- determine the proper null indicator
            let ind := out.indPtr.getD out.scalarInd
            if attr.typeInfo.oracleTypeNum = .NONE then
              { status := some (.unhandledDataType attr.typeInfo.ociTypeCode),
                conv := none, trace := [.objectGetAttr] }
            else
              let r := dpiObject__fromOracleValue ops obj attr.typeInfo
                out.value ind nativeTypeNum
              { status := r.status, conv := some r,
                trace := [.objectGetAttr] }

/-- Result of `dpiObject_getFirstIndex` / `dpiObject_getLastIndex`: status
plus the values written to the `*index` and `*exists` out-parameters. -/
structure FirstLastResult where
  status : Option DpiErr
  existsOut : Option Bool
  indexOut : Option Int
  trace : List NativeCall
  deriving DecidableEq, Repr

/-- `dpiObject_getFirstIndex` (dpiObject.c lines 774-791): after the
collection and argument checks, read the collection size; a zero size yields
success with `*exists = 0` and no native first call. -/
def dpiObject_getFirstIndex (ops : OciOps) (obj : DpiObject)
    (handleOk indexPtrOk existsPtrOk : Bool) : FirstLastResult :=
  match dpiObject__checkIsCollection obj handleOk with
  | some e =>
      { status := some e, existsOut := none, indexOut := none, trace := [] }
  | none =>
      if !indexPtrOk then
        { status := some .nullPointer, existsOut := none, indexOut := none,
          trace := [] }
      else if !existsPtrOk then
        { status := some .nullPointer, existsOut := none, indexOut := none,
          trace := [] }
      else
        match ops.tableSizeRes with
        | none =>
            { status := some .nativeError, existsOut := none,
              indexOut := none, trace := [.tableSize] }
        | some size =>
            if size ≠ 0 then
              match ops.tableFirstRes with
              | some i =>
                  { status := none, existsOut := some true,
                    indexOut := some i, trace := [.tableSize, .tableFirst] }
              | none =>
                  { status := some .nativeError, existsOut := some true,
                    indexOut := none, trace := [.tableSize, .tableFirst] }
            else
              { status := none, existsOut := some false, indexOut := none,
                trace := [.tableSize] }

/-- `dpiObject_getLastIndex` (dpiObject.c lines 798-815). -/
def dpiObject_getLastIndex (ops : OciOps) (obj : DpiObject)
    (handleOk indexPtrOk existsPtrOk : Bool) : FirstLastResult :=
  match dpiObject__checkIsCollection obj handleOk with
  | some e =>
      { status := some e, existsOut := none, indexOut := none, trace := [] }
  | none =>
      if !indexPtrOk then
        { status := some .nullPointer, existsOut := none, indexOut := none,
          trace := [] }
      else if !existsPtrOk then
        { status := some .nullPointer, existsOut := none, indexOut := none,
          trace := [] }
      else
        match ops.tableSizeRes with
        | none =>
            { status := some .nativeError, existsOut := none,
              indexOut := none, trace := [.tableSize] }
        | some size =>
            if size ≠ 0 then
              match ops.tableLastRes with
              | some i =>
                  { status := none, existsOut := some true,
                    indexOut := some i, trace := [.tableSize, .tableLast] }
              | none =>
                  { status := some .nativeError, existsOut := some true,
                    indexOut := none, trace := [.tableSize, .tableLast] }
            else
              { status := none, existsOut := some false, indexOut := none,
                trace := [.tableSize] }

/-- Sample environment used for concrete evaluations. -/
def sampleEnv : DpiEnv := { threaded := true, encoding := 10, nencoding := 11 }

/-- Sample connection (alive, not tearing down). -/
def sampleConn : DpiConn := { closing := false, connected := true }

/-- Sample element type information (arbitrary-precision number). -/
def sampleNumberInfo : DpiDataTypeInfo :=
  { oracleTypeNum := .NUMBER, objectType := none, ociTypeCode := 2 }

/-- Sample collection type with number elements. -/
def sampleCollType : DpiObjectType :=
  { tdo := 1, schema := "S", name := "T", isCollection := true,
    elementTypeInfo := sampleNumberInfo, conn := sampleConn }

/-- Sample open top-level object holding live native handles. -/
def sampleObj : DpiObject :=
  { type := sampleCollType, env := sampleEnv, instanceH := some 3,
    indicator := some 4, dependsOnObj := false, closing := false,
    freeIndicator := true, registered := true }

/-- Sample object already marked as closing. -/
def sampleClosingObj : DpiObject := { sampleObj with closing := true }

/-- Sample dependent object (aliases a parent's native memory). -/
def sampleDepObj : DpiObject := { sampleObj with dependsOnObj := true }

/-- Sample referenced object stored inside a tagged value. -/
def sampleObjInst : ObjInst :=
  { typeTdo := 1, typeSchema := "S", typeName := "T", instanceH := some 9,
    indicator := some 4 }

/-- Sample tagged-value payload. -/
def sampleValueBuf : DpiDataBuffer :=
  { asBytes := 1, asInt64 := 2, asUint64 := 3, asFloat := 4, asDouble := 5,
    asBoolean := true, asTimestamp := 6, asObject := sampleObjInst,
    asLOB := 8 }

/-- Sample non-null tagged value. -/
def sampleData : DpiData := { isNull := false, value := sampleValueBuf }

/-- Sample null tagged value. -/
def sampleNullData : DpiData := { isNull := true, value := sampleValueBuf }

/-- Sample oracle outcomes: every external call succeeds, with distinctive
token arithmetic so results are traceable. -/
def sampleOps : OciOps :=
  { stringAssignText := fun b => some (b + 100)
    rawAssignBytes := fun b => some (b + 200)
    toNumberFromInteger := fun i => some i.natAbs
    toNumberFromDouble := fun d => some d
    toNumberFromText := fun b => some b
    toOracleDate := fun t => some t
    toOracleDateFromDouble := fun d => some d
    descriptorAlloc := fun h => some (h + 300)
    toOracleTimestamp := fun _ _ _ => true
    toOracleTimestampFromDouble := fun _ _ _ => true
    doubleToFloat := fun d => d
    lobAlloc := fun _ => some 7
    lobSetFromBytes := fun _ _ => true
    lobLocator := fun l => l + 50
    stringPtr := fun v => v
    stringSize := fun v => v + 1
    rawPtr := fun v => v
    rawSize := fun v => v + 1
    readInt32 := fun v => (v : Int)
    readFloat := fun v => v
    readDouble := fun v => v
    readBoolean := fun _ => true
    derefCollection := fun v => v
    fromNumberAsDouble := fun v => some v
    fromNumberAsInteger := fun v => some (v : Int)
    fromNumberAsUnsigned := fun v => some v
    fromNumberAsText := fun v => some v
    fromOracleDate := fun v => some v
    fromOracleDateAsDouble := fun v => some v
    fromOracleTimestamp := fun v _ => some v
    fromOracleTimestampAsDouble := fun _ v => some v
    allocObjectOk := true
    lobLocatorAssignOk := true
    collAppendOk := true
    collAssignElemOk := true
    objectSetAttrOk := true
    objectGetAttrRes := some { scalarInd := 0, indPtr := none, value := 5 }
    tableSizeRes := some 0
    tableFirstRes := some 1
    tableLastRes := some 9 }

/-- A close call on an object already marked closing is a trivial success. -/
theorem close_already_closing (obj : DpiObject) (o : CloseOracle)
    (h : obj.closing = true) :
    dpiObject__close obj o =
      { obj := { obj with closing := true }, ok := true, instFreeCalls := 0,
        indFreeCalls := 0, instFreed := false, removeCalls := 0 } := by
  simp [dpiObject__close, h]

/-- A close call on an object whose instance handle is already NULL performs
no native work. -/
theorem close_no_instance (obj : DpiObject) (o : CloseOracle)
    (h : obj.instanceH = none) :
    dpiObject__close obj o =
      { obj := { obj with closing := true }, ok := true, instFreeCalls := 0,
        indFreeCalls := 0, instFreed := false, removeCalls := 0 } := by
  cases hc : obj.closing <;> simp [dpiObject__close, hc, h]

/-- A successful native free of the instance can only happen from an open,
non-dependent object with a live handle, and it nulls the handle. -/
theorem close_instFreed (obj : DpiObject) (o : CloseOracle)
    (h : (dpiObject__close obj o).instFreed = true) :
    obj.closing = false ∧ obj.dependsOnObj = false ∧
      obj.instanceH.isSome = true ∧
      (dpiObject__close obj o).obj.instanceH = none := by
  cases hc : obj.closing <;> cases hd : obj.dependsOnObj <;>
    cases hi : obj.instanceH <;> cases hf : o.freeInstOk <;>
    cases hfi : obj.freeIndicator <;> cases hio : o.freeIndOk <;>
    cases hcc : obj.type.conn.closing <;>
    simp_all [dpiObject__close, dpiObject__closeHelper]

/-- Every close call in a run starting from a NULL instance handle is a
trivial success. -/
theorem closeRun_no_instance (obj : DpiObject) (os : List CloseOracle)
    (h : obj.instanceH = none) :
    ∀ r ∈ closeRun obj os, r.ok = true ∧ r.instFreeCalls = 0 ∧
      r.indFreeCalls = 0 ∧ r.instFreed = false ∧ r.removeCalls = 0 := by
  induction os generalizing obj with
  | nil => simp [closeRun]
  | cons o os ih =>
      intro r hr
      rw [closeRun, close_no_instance obj o h] at hr
      rcases List.mem_cons.mp hr with hr | hr
      · subst hr; exact ⟨rfl, rfl, rfl, rfl, rfl⟩
      · exact ih { obj with closing := true } h r hr

/-- A run starting from a NULL instance handle leaves the indicator handle,
the registry membership and the (absent) instance handle untouched. -/
theorem closeSeqObj_no_instance (obj : DpiObject) (os : List CloseOracle)
    (h : obj.instanceH = none) :
    (closeSeqObj obj os).instanceH = none ∧
      (closeSeqObj obj os).indicator = obj.indicator ∧
      (closeSeqObj obj os).registered = obj.registered := by
  induction os generalizing obj with
  | nil => exact ⟨h, rfl, rfl⟩
  | cons o os ih =>
      rw [closeSeqObj, close_no_instance obj o h]
      exact ih { obj with closing := true } h

/-- A run starting from a NULL instance handle never frees the instance. -/
theorem totalInstFreed_no_instance (obj : DpiObject) (os : List CloseOracle)
    (h : obj.instanceH = none) :
    totalInstFreed (closeRun obj os) = 0 := by
  induction os generalizing obj with
  | nil => rfl
  | cons o os ih =>
      rw [closeRun, close_no_instance obj o h]
      simpa [totalInstFreed] using ih { obj with closing := true } h

/-- Across any sequence of close calls, the instance is freed at most once. -/
theorem totalInstFreed_le_one (obj : DpiObject) (os : List CloseOracle) :
    totalInstFreed (closeRun obj os) ≤ 1 := by
  induction os generalizing obj with
  | nil => simp [closeRun, totalInstFreed]
  | cons o os ih =>
      rw [closeRun]
      by_cases hf : (dpiObject__close obj o).instFreed
      · have h4 := (close_instFreed obj o hf).2.2.2
        have h0 := totalInstFreed_no_instance (dpiObject__close obj o).obj os h4
        simp only [totalInstFreed] at h0 ⊢
        simp [hf, h0]
      · simpa [totalInstFreed, hf] using ih (dpiObject__close obj o).obj

/-- C1: once a close call has recorded the instance as closing (closing flag
set), every subsequent `dpiObject__close` call on that instance returns
success immediately and performs no native free work; consequently the
instance's native memory is successfully released at most once across any
sequence of close calls. -/
theorem close_idempotent_single_free (obj : DpiObject) :
    (obj.closing = true → ∀ o : CloseOracle,
      (dpiObject__close obj o).ok = true ∧
      (dpiObject__close obj o).instFreeCalls = 0 ∧
      (dpiObject__close obj o).indFreeCalls = 0 ∧
      (dpiObject__close obj o).instFreed = false) ∧
    ∀ os : List CloseOracle, totalInstFreed (closeRun obj os) ≤ 1 := by
  refine ⟨fun h o => ?_, fun os => totalInstFreed_le_one obj os⟩
  rw [close_already_closing obj o h]
  exact ⟨rfl, rfl, rfl, rfl⟩

/-- Witness for C1 at a concrete already-closing object and a concrete
sequence of close attempts. -/
theorem close_idempotent_single_free_witness :
    (dpiObject__close sampleClosingObj ⟨true, true⟩).ok = true ∧
    totalInstFreed
      (closeRun sampleObj [⟨true, false⟩, ⟨true, true⟩, ⟨false, true⟩]) ≤ 1 :=
  ⟨((close_idempotent_single_free sampleClosingObj).1 (by decide)
      ⟨true, true⟩).1,
   (close_idempotent_single_free sampleObj).2
      [⟨true, false⟩, ⟨true, true⟩, ⟨false, true⟩]⟩

/-- C2: closing a dependent instance performs no native free call and
succeeds; a successful native free only ever happens for a non-dependent
instance holding a live native handle; and `dpiObject__allocate` with a
parent marks the new instance dependent and does not register it in the
connection's handle list. -/
theorem close_dependent_no_free :
    (∀ (obj : DpiObject) (o : CloseOracle), obj.dependsOnObj = true →
      (dpiObject__close obj o).ok = true ∧
      (dpiObject__close obj o).instFreeCalls = 0 ∧
      (dpiObject__close obj o).indFreeCalls = 0 ∧
      (dpiObject__close obj o).instFreed = false ∧
      (dpiObject__close obj o).removeCalls = 0) ∧
    (∀ (obj : DpiObject) (o : CloseOracle),
      (dpiObject__close obj o).instFreed = true →
      obj.dependsOnObj = false ∧ obj.instanceH.isSome = true) ∧
    (∀ (objType : DpiObjectType) (env : DpiEnv)
      (instanceH indicator : Option Nat) (o : AllocOracle) (r : DpiObject),
      dpiObject__allocate objType env instanceH indicator true o = some r →
      r.dependsOnObj = true ∧ r.registered = false) := by
  refine ⟨fun obj o h => ?_, fun obj o h => ?_,
    fun objType env instanceH indicator o r h => ?_⟩
  · cases hc : obj.closing <;> simp [dpiObject__close, hc, h]
  · exact ⟨(close_instFreed obj o h).2.1, (close_instFreed obj o h).2.2.1⟩
  · cases hg : o.genAllocOk <;> cases hi : instanceH <;>
      cases hn : o.objectNewRes <;> cases hgi : o.getIndRes <;>
      simp_all [dpiObject__allocate] <;> (cases h; exact ⟨rfl, rfl⟩)

/-- Witness for C2 at a concrete dependent object and a concrete dependent
allocation. -/
theorem close_dependent_no_free_witness :
    (dpiObject__close sampleDepObj ⟨true, true⟩).ok = true ∧
    (dpiObject__allocate sampleCollType sampleEnv (some 3) (some 4) true
        ⟨true, none, none, true⟩).any (fun r => r.dependsOnObj) = true := by
  refine ⟨(close_dependent_no_free.1 sampleDepObj ⟨true, true⟩ (by decide)).1,
    ?_⟩
  have h := close_dependent_no_free.2.2 sampleCollType sampleEnv (some 3)
    (some 4) ⟨true, none, none, true⟩
    { type := sampleCollType, env := sampleEnv, instanceH := some 3,
      indicator := some 4, dependsOnObj := true, closing := false,
      freeIndicator := false, registered := false } rfl
  simp [dpiObject__allocate, h.1]

/-- C7: when the native free of the instance fails for an open, top-level
instance with a live handle, the closing flag is reset, the call reports
failure, the instance handle is untouched, and a subsequent close call
re-attempts the native free. -/
theorem close_failure_reverts (obj : DpiObject) (o : CloseOracle)
    (h1 : obj.closing = false) (h2 : obj.dependsOnObj = false)
    (h3 : obj.instanceH.isSome = true) (h4 : o.freeInstOk = false) :
    (dpiObject__close obj o).ok = false ∧
    (dpiObject__close obj o).obj.closing = false ∧
    (dpiObject__close obj o).obj.instanceH = obj.instanceH ∧
    ∀ o2 : CloseOracle,
      (dpiObject__close (dpiObject__close obj o).obj o2).instFreeCalls = 1 := by
  have hres : dpiObject__close obj o =
      { obj := { obj with closing := false }, ok := false, instFreeCalls := 1,
        indFreeCalls := 0, instFreed := false, removeCalls := 0 } := by
    simp [dpiObject__close, dpiObject__closeHelper, h1, h3, h2, h4]
  refine ⟨by rw [hres], by rw [hres], by rw [hres], fun o2 => ?_⟩
  rw [hres]
  cases hf2 : o2.freeInstOk <;> cases hfi : obj.freeIndicator <;>
    cases hio : o2.freeIndOk <;> cases hcc : obj.type.conn.closing <;>
    simp_all [dpiObject__close, dpiObject__closeHelper]

/-- Witness for C7 at the sample open top-level object with a failing
instance free. -/
theorem close_failure_reverts_witness :
    (dpiObject__close sampleObj ⟨false, true⟩).ok = false ∧
    (dpiObject__close (dpiObject__close sampleObj ⟨false, true⟩).obj
      ⟨true, true⟩).instFreeCalls = 1 := by
  have h := close_failure_reverts sampleObj ⟨false, true⟩ (by decide)
    (by decide) (by decide) (by decide)
  exact ⟨h.1, h.2.2.2 ⟨true, true⟩⟩

/-- C10: if the native free of the instance succeeds but the free of the
separately owned indicator fails, the close call reports failure and resets
the closing flag, yet the instance handle is already NULL; every subsequent
close call then succeeds with no native work, so the indicator handle is
never freed and the object's handle-registry slot is never removed. -/
theorem close_indicator_orphan (obj : DpiObject) (o : CloseOracle)
    (h1 : obj.closing = false) (h2 : obj.dependsOnObj = false)
    (h3 : obj.instanceH.isSome = true) (h4 : obj.freeIndicator = true)
    (h5 : o.freeInstOk = true) (h6 : o.freeIndOk = false) :
    (dpiObject__close obj o).ok = false ∧
    (dpiObject__close obj o).obj.closing = false ∧
    (dpiObject__close obj o).obj.instanceH = none ∧
    (dpiObject__close obj o).obj.indicator = obj.indicator ∧
    (dpiObject__close obj o).removeCalls = 0 ∧
    ∀ os : List CloseOracle,
      (∀ r ∈ closeRun (dpiObject__close obj o).obj os,
        r.ok = true ∧ r.instFreeCalls = 0 ∧ r.indFreeCalls = 0 ∧
          r.removeCalls = 0) ∧
      (closeSeqObj (dpiObject__close obj o).obj os).indicator =
        obj.indicator ∧
      (closeSeqObj (dpiObject__close obj o).obj os).registered =
        obj.registered := by
  have hres : dpiObject__close obj o =
      { obj := { obj with closing := false, instanceH := none }, ok := false,
        instFreeCalls := 1, indFreeCalls := 1, instFreed := true,
        removeCalls := 0 } := by
    simp [dpiObject__close, dpiObject__closeHelper, h1, h3, h2, h4, h5, h6]
  refine ⟨by rw [hres], by rw [hres], by rw [hres], by rw [hres],
    by rw [hres], fun os => ⟨fun r hr => ?_, ?_, ?_⟩⟩
  · have := closeRun_no_instance (dpiObject__close obj o).obj os
      (by rw [hres]) r hr
    exact ⟨this.1, this.2.1, this.2.2.1, this.2.2.2.2⟩
  · have := closeSeqObj_no_instance (dpiObject__close obj o).obj os
      (by rw [hres])
    rw [this.2.1, hres]
  · have := closeSeqObj_no_instance (dpiObject__close obj o).obj os
      (by rw [hres])
    rw [this.2.2, hres]

/-- Witness for C10 at the sample object: the instance free succeeds, the
indicator free fails, and two further close attempts follow. -/
theorem close_indicator_orphan_witness :
    (dpiObject__close sampleObj ⟨true, false⟩).ok = false ∧
    (closeSeqObj (dpiObject__close sampleObj ⟨true, false⟩).obj
      [⟨true, true⟩, ⟨true, true⟩]).indicator = sampleObj.indicator := by
  have h := close_indicator_orphan sampleObj ⟨true, false⟩ (by decide)
    (by decide) (by decide) (by decide) (by decide) (by decide)
  exact ⟨h.1, (h.2.2.2.2.2 [⟨true, true⟩, ⟨true, true⟩]).2.1⟩

/-- C3: a null-indicated native value converts to `isNull = 1` with success,
with a result independent of the native value token and of every external
reader (the encoding is never inspected); a null tagged value converts to the
native null indicator with a NULL value pointer and no scratch allocation. -/
theorem conversion_null_short_circuit :
    (∀ (ops ops2 : OciOps) (obj : DpiObject) (ti : DpiDataTypeInfo)
      (v v2 : Nat) (n : dpiNativeTypeNum),
      dpiObject__fromOracleValue ops obj ti v DPI_OCI_IND_NULL n =
        { status := none, isNull := true, value := none } ∧
      dpiObject__fromOracleValue ops obj ti v DPI_OCI_IND_NULL n =
        dpiObject__fromOracleValue ops2 obj ti v2 DPI_OCI_IND_NULL n) ∧
    (∀ (ops : OciOps) (obj : DpiObject) (ti : DpiDataTypeInfo)
      (n : dpiNativeTypeNum) (d : DpiData), d.isNull = true →
      dpiObject__toOracleValue ops obj ti n d =
        { status := none, buffer := .ptr none, lob := none,
          ociValue := .null, valueIndicator := DPI_OCI_IND_NULL,
          objectIndicator := none, allocs := [] }) := by
  refine ⟨fun ops ops2 obj ti v v2 n => ⟨?_, ?_⟩,
    fun ops obj ti n d h => ?_⟩ <;>
    simp [dpiObject__fromOracleValue, dpiObject__toOracleValue, *]

/-- Witness for C3 at concrete inputs. -/
theorem conversion_null_short_circuit_witness :
    (dpiObject__fromOracleValue sampleOps sampleObj sampleNumberInfo 5
      DPI_OCI_IND_NULL .DOUBLE).isNull = true ∧
    (dpiObject__toOracleValue sampleOps sampleObj sampleNumberInfo .DOUBLE
      sampleNullData).allocs = [] := by
  refine ⟨?_, ?_⟩
  · rw [(conversion_null_short_circuit.1 sampleOps sampleOps sampleObj
      sampleNumberInfo 5 5 .DOUBLE).1]
  · rw [conversion_null_short_circuit.2 sampleOps sampleObj sampleNumberInfo
      .DOUBLE sampleNullData (by decide)]

/-- C9: `dpiObject_getFirstIndex` / `dpiObject_getLastIndex` on a zero-size
collection report success with `exists = false` and make no native
first/last call; on a nonzero size they report `exists = true` together with
the index the native first/last call returned. -/
theorem first_last_empty_collection (ops : OciOps) (obj : DpiObject)
    (h1 : obj.type.isCollection = true)
    (h2 : obj.type.conn.connected = true) :
    (ops.tableSizeRes = some 0 →
      dpiObject_getFirstIndex ops obj true true true =
        { status := none, existsOut := some false, indexOut := none,
          trace := [.tableSize] } ∧
      dpiObject_getLastIndex ops obj true true true =
        { status := none, existsOut := some false, indexOut := none,
          trace := [.tableSize] }) ∧
    (∀ s i : Int, ops.tableSizeRes = some s → s ≠ 0 →
      ops.tableFirstRes = some i →
      dpiObject_getFirstIndex ops obj true true true =
        { status := none, existsOut := some true, indexOut := some i,
          trace := [.tableSize, .tableFirst] }) ∧
    (∀ s i : Int, ops.tableSizeRes = some s → s ≠ 0 →
      ops.tableLastRes = some i →
      dpiObject_getLastIndex ops obj true true true =
        { status := none, existsOut := some true, indexOut := some i,
          trace := [.tableSize, .tableLast] }) := by
  refine ⟨fun hs => ⟨?_, ?_⟩, fun s i hs hnz hf => ?_, fun s i hs hnz hf => ?_⟩ <;>
    simp [dpiObject_getFirstIndex, dpiObject_getLastIndex,
      dpiObject__checkIsCollection, dpiObject__check, h1, h2, hs, *]

/-- Witness for C9: the sample oracle reports size 0, and a size-3 variant
reports the native first index. -/
theorem first_last_empty_collection_witness :
    (dpiObject_getFirstIndex sampleOps sampleObj true true true).existsOut =
      some false ∧
    (dpiObject_getFirstIndex { sampleOps with tableSizeRes := some 3 }
      sampleObj true true true).indexOut = some 1 := by
  refine ⟨?_, ?_⟩
  · rw [((first_last_empty_collection sampleOps sampleObj (by decide)
      (by decide)).1 rfl).1]
  · rw [(first_last_empty_collection
      { sampleOps with tableSizeRes := some 3 } sampleObj (by decide)
      (by decide)).2.1 3 1 rfl (by decide) rfl]

/-- C8: an attribute whose owning type differs by identity (`tdo`) from the
instance's type makes both `dpiObject_getAttributeValue` and
`dpiObject_setAttributeValue` fail with the WrongAttr error naming the
attribute and the instance's type schema and name, before any native get/set
call. -/
theorem wrong_attr_short_circuit (ops : OciOps) (obj : DpiObject)
    (attr : DpiObjectAttr) (n : dpiNativeTypeNum) (d : DpiData)
    (h1 : obj.type.conn.connected = true)
    (h2 : attr.belongsToTypeTdo ≠ obj.type.tdo) :
    dpiObject_getAttributeValue ops obj true true true attr n =
      { status := some (.wrongAttr attr.name obj.type.schema obj.type.name),
        conv := none, trace := [] } ∧
    dpiObject_setAttributeValue ops obj true true attr n (some d) =
      { status := some (.wrongAttr attr.name obj.type.schema obj.type.name),
        trace := [] } := by
  refine ⟨?_, ?_⟩ <;>
    simp [dpiObject_getAttributeValue, dpiObject_setAttributeValue,
      dpiObject__check, h1, h2]

/-- Witness for C8: an attribute owned by a type with a different `tdo`. -/
theorem wrong_attr_short_circuit_witness :
    (dpiObject_getAttributeValue sampleOps sampleObj true true true
      { belongsToTypeTdo := 99, name := "A", typeInfo := sampleNumberInfo }
      .DOUBLE).status = some (.wrongAttr "A" "S" "T") ∧
    (dpiObject_setAttributeValue sampleOps sampleObj true true
      { belongsToTypeTdo := 99, name := "A", typeInfo := sampleNumberInfo }
      .DOUBLE (some sampleData)).trace = [] := by
  have h := wrong_attr_short_circuit sampleOps sampleObj
    { belongsToTypeTdo := 99, name := "A", typeInfo := sampleNumberInfo }
    .DOUBLE sampleData (by decide) (by decide)
  rw [h.1, h.2]
  exact ⟨rfl, rfl⟩

/-- Number of `dpiObject__clearOracleValue` invocations in a trace. -/
def totalClearCalls (tr : List NativeCall) : Nat :=
  tr.countP fun c => match c with
    | .clearValue _ _ => true
    | _ => false

/-- Number of `dpiObject__clearOracleValue` invocations keyed to a given
oracle type tag in a trace. -/
def clearCallsTagged (tr : List NativeCall) (tag : dpiOracleTypeNum) : Nat :=
  tr.countP fun c => match c with
    | .clearValue t _ => t == tag
    | _ => false

/-- C5: every `dpiObject_appendElement`, `dpiObject_setAttributeValue` and
`dpiObject_setElementValueByIndex` call that reaches the conversion step runs
the scratch clear keyed to the element/attribute oracle type tag exactly
once, on every path: conversion success, conversion failure, and native
append/assign/set failure. -/
theorem clear_runs_exactly_once (ops : OciOps) (obj : DpiObject)
    (attr : DpiObjectAttr) (n : dpiNativeTypeNum) (d : DpiData) (index : Int)
    (h1 : obj.type.conn.connected = true) :
    (obj.type.isCollection = true →
      totalClearCalls
        (dpiObject_appendElement ops obj true n (some d)).trace = 1 ∧
      clearCallsTagged (dpiObject_appendElement ops obj true n (some d)).trace
        obj.type.elementTypeInfo.oracleTypeNum = 1 ∧
      totalClearCalls
        (dpiObject_setElementValueByIndex ops obj true index n
          (some d)).trace = 1 ∧
      clearCallsTagged
        (dpiObject_setElementValueByIndex ops obj true index n (some d)).trace
        obj.type.elementTypeInfo.oracleTypeNum = 1) ∧
    (attr.belongsToTypeTdo = obj.type.tdo →
      attr.typeInfo.oracleTypeNum ≠ .NONE →
      totalClearCalls
        (dpiObject_setAttributeValue ops obj true true attr n
          (some d)).trace = 1 ∧
      clearCallsTagged
        (dpiObject_setAttributeValue ops obj true true attr n (some d)).trace
        attr.typeInfo.oracleTypeNum = 1) := by
  constructor
  · intro hcoll
    cases hs : (dpiObject__toOracleValue ops obj obj.type.elementTypeInfo n
        d).status <;>
      simp [dpiObject_appendElement, dpiObject_setElementValueByIndex,
        dpiObject__checkIsCollection, dpiObject__check, h1, hcoll, hs,
        totalClearCalls, clearCallsTagged]
  · intro ha hty
    cases hs : (dpiObject__toOracleValue ops obj attr.typeInfo n d).status <;>
      simp [dpiObject_setAttributeValue, dpiObject__check, h1, ha, hty, hs,
        totalClearCalls, clearCallsTagged]

/-- Witness for C5 at a concrete collection object, attribute and value. -/
theorem clear_runs_exactly_once_witness :
    totalClearCalls
      (dpiObject_appendElement sampleOps sampleObj true .DOUBLE
        (some sampleData)).trace = 1 ∧
    totalClearCalls
      (dpiObject_setAttributeValue sampleOps sampleObj true true
        { belongsToTypeTdo := 1, name := "A", typeInfo := sampleNumberInfo }
        .DOUBLE (some sampleData)).trace = 1 := by
  have h := clear_runs_exactly_once sampleOps sampleObj
    { belongsToTypeTdo := 1, name := "A", typeInfo := sampleNumberInfo }
    .DOUBLE sampleData 0 (by decide)
  exact ⟨(h.1 (by decide)).1, (h.2 (by decide) (by decide)).1⟩

/-- True when a status is an unhandled-conversion error. -/
def isUnhandledConv : Option DpiErr → Bool
  | some (.unhandledConversion _ _) => true
  | _ => false

/-- Modelled from the spec: the conversion matrix of the specification
(each row read as a symmetric pairing), used to state how the code's
behavior differs from the specified matrix. -/
def specConversionMatrix (o : dpiOracleTypeNum) (n : dpiNativeTypeNum) :
    Bool :=
  match o, n with
  | .CHAR, .BYTES | .NCHAR, .BYTES | .VARCHAR, .BYTES
  | .NVARCHAR, .BYTES => true
  | .RAW, .BYTES => true
  | .NATIVE_INT, .INT64 => true
  | .NATIVE_FLOAT, .FLOAT => true
  | .NATIVE_DOUBLE, .DOUBLE => true
  | .NUMBER, .DOUBLE | .NUMBER, .INT64 | .NUMBER, .UINT64
  | .NUMBER, .BYTES => true
  | .DATE, .TIMESTAMP | .DATE, .DOUBLE => true
  | .TIMESTAMP, .TIMESTAMP | .TIMESTAMP, .DOUBLE => true
  | .TIMESTAMP_TZ, .TIMESTAMP | .TIMESTAMP_TZ, .DOUBLE => true
  | .TIMESTAMP_LTZ, .TIMESTAMP | .TIMESTAMP_LTZ, .DOUBLE => true
  | .OBJECT, .OBJECT => true
  | .BOOLEAN, .BOOLEAN => true
  | .CLOB, .LOB | .CLOB, .BYTES | .NCLOB, .LOB | .NCLOB, .BYTES
  | .BLOB, .LOB | .BLOB, .BYTES | .BFILE, .LOB | .BFILE, .BYTES => true
  | _, _ => false

/-- The pairings `dpiObject__toOracleValue` handles (those that do not fall
through to the unhandled-conversion error): read off the branch structure of
dpiObject.c lines 433-581. -/
def handledToPair (o : dpiOracleTypeNum) (n : dpiNativeTypeNum) : Bool :=
  match o with
  | .CHAR | .NCHAR | .VARCHAR | .NVARCHAR => n == .BYTES
  | .RAW => n == .BYTES
  | .NATIVE_INT => n == .INT64
  | .NUMBER => n == .INT64 || n == .DOUBLE || n == .BYTES
  | .NATIVE_FLOAT => n == .FLOAT || n == .DOUBLE
  | .NATIVE_DOUBLE => n == .DOUBLE
  | .DATE => n == .TIMESTAMP || n == .DOUBLE
  | .TIMESTAMP | .TIMESTAMP_TZ | .TIMESTAMP_LTZ =>
      n == .TIMESTAMP || n == .DOUBLE
  | .OBJECT => n == .OBJECT
  | .BOOLEAN => n == .BOOLEAN
  | .CLOB | .NCLOB | .BLOB | .BFILE => n == .LOB || n == .BYTES
  | _ => false

/-- The pairings `dpiObject__fromOracleValue` handles (the nested-object row
additionally requires the type descriptor to carry an object type): read off
the branch structure of dpiObject.c lines 264-400. -/
def handledFromPair (ti : DpiDataTypeInfo) (n : dpiNativeTypeNum) : Bool :=
  match ti.oracleTypeNum with
  | .CHAR | .NCHAR | .VARCHAR | .NVARCHAR => n == .BYTES
  | .RAW => n == .BYTES
  | .NATIVE_INT => n == .INT64
  | .NATIVE_FLOAT => n == .FLOAT
  | .NATIVE_DOUBLE => n == .DOUBLE
  | .NUMBER => n == .DOUBLE || n == .INT64 || n == .UINT64 || n == .BYTES
  | .DATE => n == .TIMESTAMP || n == .DOUBLE
  | .TIMESTAMP | .TIMESTAMP_TZ | .TIMESTAMP_LTZ =>
      n == .TIMESTAMP || n == .DOUBLE
  | .OBJECT => ti.objectType.isSome && n == .OBJECT
  | .BOOLEAN => n == .BOOLEAN
  | .CLOB | .NCLOB | .BLOB | .BFILE => n == .LOB
  | _ => false

/-- For a non-null value, the to-direction reports an unhandled conversion
exactly on the pairings outside its branch structure, and the error names
the oracle type and the requested external type. -/
theorem toOracle_unhandled_iff (ops : OciOps) (obj : DpiObject)
    (ti : DpiDataTypeInfo) (n : dpiNativeTypeNum) (d : DpiData)
    (a : dpiOracleTypeNum) (b : dpiNativeTypeNum) (hd : d.isNull = false) :
    (dpiObject__toOracleValue ops obj ti n d).status =
        some (.unhandledConversion a b) ↔
      handledToPair ti.oracleTypeNum n = false ∧ ti.oracleTypeNum = a ∧
        n = b := by
  obtain ⟨vo, oty, code⟩ := ti
  obtain ⟨dIsNull, dval⟩ := d
  simp only at hd
  subst hd
  cases vo <;>
    simp only [dpiObject__toOracleValue, handledToPair, toOracleValueString,
      toOracleValueRaw, toOracleValueNativeInt, toOracleValueNumber,
      toOracleValueNativeFloat, toOracleValueNativeDouble,
      toOracleValueDateCase, toOracleValueTimestampCase, toOracleValueObject,
      toOracleValueBoolean, toOracleValueLobCase] <;>
    (repeat' split) <;> (try casesm* _ ∨ _) <;> simp_all

/-- For a non-null indicator, the from-direction reports an unhandled
conversion exactly on the pairings outside its branch structure, and the
error names the oracle type and the requested external type. -/
theorem fromOracle_unhandled_iff (ops : OciOps) (obj : DpiObject)
    (ti : DpiDataTypeInfo) (value : Nat) (ind : Int) (n : dpiNativeTypeNum)
    (a : dpiOracleTypeNum) (b : dpiNativeTypeNum)
    (hind : ind ≠ DPI_OCI_IND_NULL) :
    (dpiObject__fromOracleValue ops obj ti value ind n).status =
        some (.unhandledConversion a b) ↔
      handledFromPair ti n = false ∧ ti.oracleTypeNum = a ∧ n = b := by
  obtain ⟨vo, oty, code⟩ := ti
  cases vo <;>
    simp only [dpiObject__fromOracleValue, fromOracleValueString,
      fromOracleValueRaw, fromOracleValueNativeInt, fromOracleValueNativeFloat,
      fromOracleValueNativeDouble, fromOracleValueNumber,
      fromOracleValueDateCase, fromOracleValueTimestampCase,
      fromOracleValueObject, fromOracleValueBoolean, fromOracleValueLobCase,
      fromOracleOk, fromOracleFail, fromOracleUnhandled, handledFromPair] <;>
    (repeat' split) <;> (try casesm* _ ∨ _) <;> simp_all

/-- C4 counterexample: the pairing (fixed-width native float, external
double) is not in the spec's matrix, yet the to-direction converts it
successfully; and the pairing (arbitrary-precision number, unsigned 64-bit
integer) is in the spec's matrix, yet the to-direction rejects it as an
unhandled conversion. -/
theorem conversion_matrix_counterexample :
    specConversionMatrix .NATIVE_FLOAT .DOUBLE = false ∧
    (dpiObject__toOracleValue sampleOps sampleObj
      { oracleTypeNum := .NATIVE_FLOAT, objectType := none,
        ociTypeCode := 21 } .DOUBLE sampleData).status = none ∧
    specConversionMatrix .NUMBER .UINT64 = true ∧
    (dpiObject__toOracleValue sampleOps sampleObj sampleNumberInfo .UINT64
      sampleData).status = some (.unhandledConversion .NUMBER .UINT64) := by
  refine ⟨rfl, rfl, rfl, rfl⟩

/-- C4 (amended): for a non-null value, each conversion direction reports an
unhandled-conversion error exactly on the pairings outside the code's matrix,
and that error names the native (oracle) type and the requested external
type; the code's matrix differs from the spec's matrix in the to-direction:
fixed-width native float additionally pairs with external double, and
arbitrary-precision number does not pair with the unsigned 64-bit integer
(the from-direction matches the spec on both rows). -/
theorem conversion_unhandled_characterization (ops : OciOps)
    (obj : DpiObject) (ti : DpiDataTypeInfo) (n : dpiNativeTypeNum)
    (d : DpiData) (v : Nat) (ind : Int) (hd : d.isNull = false)
    (hind : ind ≠ DPI_OCI_IND_NULL) :
    ((dpiObject__toOracleValue ops obj ti n d).status =
        some (.unhandledConversion ti.oracleTypeNum n) ↔
      handledToPair ti.oracleTypeNum n = false) ∧
    (∀ a b, (dpiObject__toOracleValue ops obj ti n d).status =
        some (.unhandledConversion a b) → a = ti.oracleTypeNum ∧ b = n) ∧
    ((dpiObject__fromOracleValue ops obj ti v ind n).status =
        some (.unhandledConversion ti.oracleTypeNum n) ↔
      handledFromPair ti n = false) ∧
    (∀ a b, (dpiObject__fromOracleValue ops obj ti v ind n).status =
        some (.unhandledConversion a b) → a = ti.oracleTypeNum ∧ b = n) ∧
    handledToPair .NATIVE_FLOAT .FLOAT = true ∧
    handledToPair .NATIVE_FLOAT .DOUBLE = true ∧
    handledToPair .NUMBER .UINT64 = false ∧
    handledFromPair
      { oracleTypeNum := .NATIVE_FLOAT, objectType := none,
        ociTypeCode := 21 } .DOUBLE = false ∧
    handledFromPair
      { oracleTypeNum := .NUMBER, objectType := none, ociTypeCode := 2 }
      .UINT64 = true := by
  refine ⟨?_, fun a b h => ?_, ?_, fun a b h => ?_, rfl, rfl, rfl, rfl, rfl⟩
  · exact (toOracle_unhandled_iff ops obj ti n d ti.oracleTypeNum n hd).trans
      (by simp)
  · have := (toOracle_unhandled_iff ops obj ti n d a b hd).mp h
    exact ⟨this.2.1.symm, this.2.2.symm⟩
  · exact (fromOracle_unhandled_iff ops obj ti v ind n ti.oracleTypeNum n
      hind).trans (by simp)
  · have := (fromOracle_unhandled_iff ops obj ti v ind n a b hind).mp h
    exact ⟨this.2.1.symm, this.2.2.symm⟩

/-- Witness for C4's amended characterization at concrete inputs. -/
theorem conversion_unhandled_characterization_witness :
    ((dpiObject__toOracleValue sampleOps sampleObj sampleNumberInfo .UINT64
        sampleData).status =
      some (.unhandledConversion .NUMBER .UINT64) ↔
      handledToPair .NUMBER .UINT64 = false) ∧
    ((dpiObject__fromOracleValue sampleOps sampleObj sampleNumberInfo 5 0
        .UINT64).status =
      some (.unhandledConversion .NUMBER .UINT64) ↔
      handledFromPair sampleNumberInfo .UINT64 = false) :=
  ⟨(conversion_unhandled_characterization sampleOps sampleObj
      sampleNumberInfo .UINT64 sampleData 5 0 (by decide) (by decide)).1,
   (conversion_unhandled_characterization sampleOps sampleObj
      sampleNumberInfo .UINT64 sampleData 5 0 (by decide)
      (by decide)).2.2.1⟩

/-- Oracle outcomes where populating the freshly created lob fails. -/
def sampleOpsLobFail : OciOps :=
  { sampleOps with lobSetFromBytes := fun _ _ => false }

/-- Sample collection type with CLOB elements. -/
def sampleLobCollType : DpiObjectType :=
  { sampleCollType with
    elementTypeInfo :=
      { oracleTypeNum := .CLOB, objectType := none, ociTypeCode := 112 } }

/-- Sample collection object with CLOB elements. -/
def sampleLobObj : DpiObject := { sampleObj with type := sampleLobCollType }

/-- C6 counterexample: converting bytes into a CLOB element allocates lob 7;
when populating it fails, the caller's unconditional clear call decrements
the reference count of exactly that newly created lob (the claim states the
generic clear path never decrements lobs created mid-conversion), while in
the reference-passthrough case, where the tagged value holds an
already-referenced lob, the clear performs no decrement at all (the claim
states it decrements only already-referenced lobs). -/
theorem lob_clear_counterexample :
    (dpiObject_appendElement sampleOpsLobFail sampleLobObj true .BYTES
      (some sampleData)).trace = [.clearValue .CLOB [.lobDecRef 7]] ∧
    (dpiObject__toOracleValue sampleOpsLobFail sampleLobObj
      sampleLobCollType.elementTypeInfo .BYTES sampleData).lob = some 7 ∧
    (dpiObject_appendElement { sampleOps with collAppendOk := false }
      sampleLobObj true .LOB (some sampleData)).trace =
      [.collAppend, .clearValue .CLOB []] := by
  refine ⟨rfl, rfl, rfl⟩

/-- C6 (amended): converting external bytes into a lob-typed element
allocates a brand-new large object and returns it through the dedicated lob
out-parameter; the caller passes exactly that lob to the generic clear
routine, whose lob branch decrements its reference count (on success and on
any failure after the allocation), while a large object passed through by
reference from the tagged value is handed to the clear routine as NULL and
is never decremented. -/
theorem lob_clear_releases_new_lob (ops : OciOps) (obj : DpiObject)
    (vo : dpiOracleTypeNum) (d : DpiData) (l : Nat)
    (hvo : vo = .CLOB ∨ vo = .NCLOB ∨ vo = .BLOB ∨ vo = .BFILE)
    (hd : d.isNull = false) (halloc : ops.lobAlloc vo = some l) :
    ((toOracleValueLobCase ops vo .BYTES d).lob = some l ∧
      (toOracleValueLobCase ops vo .BYTES d).allocs = [.lobAlloc l]) ∧
    (∀ buf : OracleDataBuffer,
      dpiObject__clearOracleValue buf (some l) vo = [.lobDecRef l] ∧
      dpiObject__clearOracleValue buf none vo = []) ∧
    (toOracleValueLobCase ops vo .LOB d).lob = none ∧
    (obj.type.isCollection = true → obj.type.conn.connected = true →
      obj.type.elementTypeInfo.oracleTypeNum = vo →
      ops.lobSetFromBytes l d.value.asBytes = false →
      (dpiObject_appendElement ops obj true .BYTES (some d)).trace =
        [.clearValue vo [.lobDecRef l]]) := by
  have hbytes : (toOracleValueLobCase ops vo .BYTES d).lob = some l ∧
      (toOracleValueLobCase ops vo .BYTES d).allocs = [.lobAlloc l] := by
    cases hs : ops.lobSetFromBytes l d.value.asBytes <;>
      simp [toOracleValueLobCase, halloc, hs]
  rcases hvo with rfl | rfl | rfl | rfl <;>
    refine ⟨hbytes, fun buf => ⟨rfl, rfl⟩, rfl,
      fun hc hcon htag hset => ?_⟩ <;>
    simp [dpiObject_appendElement, dpiObject__checkIsCollection,
      dpiObject__check, dpiObject__toOracleValue, toOracleValueLobCase,
      dpiObject__clearOracleValue, halloc, hd, hc, hcon, htag, hset]

/-- Witness for C6's amended statement at concrete inputs. -/
theorem lob_clear_releases_new_lob_witness :
    (toOracleValueLobCase sampleOps .CLOB .BYTES sampleData).lob = some 7 ∧
    dpiObject__clearOracleValue .uninit (some 7) .CLOB = [.lobDecRef 7] := by
  have h := lob_clear_releases_new_lob sampleOps sampleLobObj .CLOB
    sampleData 7 (Or.inl rfl) (by decide) rfl
  exact ⟨h.1.1, (h.2.1 .uninit).1⟩
